import Mathlib

/-!
Shallow embedding of the crypto return-comparison app (`app.py`).

Dates are modelled as integers (days), closing prices as rationals.
A pandas float `NaN` is modelled as `none : Option ℚ`: the `Return`
column produced by `pct_change().cumsum() * 100` starts with `NaN`
(there is no prior day for the first row), and every arithmetic
operation and comparison involving `NaN` is modelled exactly as IEEE
floats behave (`NaN - x = NaN`, `NaN >= 0` is false).
-/

/-- Tail of pandas `Series.pct_change` over prices `prev :: ps`:
entry for price `p` following `prev` is `(p - prev) / prev`. -/
def pctChangeAux (prev : ℚ) : List ℚ → List (Option ℚ)
  | [] => []
  | p :: ps => some ((p - prev) / prev) :: pctChangeAux p ps

/-- pandas `Series.pct_change`: the first entry is `NaN` (`none`),
entry `i ≥ 1` is `(price[i] - price[i-1]) / price[i-1]`. -/
def pctChange : List ℚ → List (Option ℚ)
  | [] => []
  | p :: ps => none :: pctChangeAux p ps

/-- pandas `Series.cumsum` with its default `skipna=True`: `NaN` entries
stay `NaN` and are skipped by the running sum. -/
def cumsumAux (acc : ℚ) : List (Option ℚ) → List (Option ℚ)
  | [] => []
  | none :: xs => none :: cumsumAux acc xs
  | some v :: xs => some (acc + v) :: cumsumAux (acc + v) xs

/-- pandas `Series.cumsum` (running sum starting from 0). -/
def cumsum (xs : List (Option ℚ)) : List (Option ℚ) := cumsumAux 0 xs

/-- The `Return` column of `get_crypto_data` (app.py line 50):
`data["Close"].pct_change().cumsum() * 100`. -/
def returnSeries (prices : List ℚ) : List (Option ℚ) :=
  (cumsum (pctChange prices)).map (Option.map (· * 100))

/-- Day-over-day relative price change between consecutive entries of `q`,
`(q[k+1] - q[k]) / q[k]` (out-of-range indices default to 0). -/
def stepAt (q : List ℚ) (k : ℕ) : ℚ := (q.getD (k+1) 0 - q.getD k 0) / q.getD k 0

/-- Entry `j` of the cumulative sum of percentage changes over `prev :: ps`,
starting from accumulator `acc`, is `acc` plus the first `j + 1` steps. -/
theorem cumsumAux_pctChangeAux_get (ps : List ℚ) :
    ∀ (prev acc : ℚ) (j : ℕ), j < ps.length →
      (cumsumAux acc (pctChangeAux prev ps)).get? j =
        some (some (acc + ∑ k ∈ Finset.range (j+1), stepAt (prev :: ps) k)) := by
  induction ps with
  | nil => intro _ _ j h; simp at h
  | cons p ps ih =>
    intro prev acc j h
    cases j with
    | zero =>
      simp [pctChangeAux, cumsumAux, stepAt, List.getD]
    | succ j =>
      have hj : j < ps.length := Nat.lt_of_succ_lt_succ h
      have hstep : ∀ k : ℕ, stepAt (prev :: p :: ps) (k + 1) = stepAt (p :: ps) k := by
        intro k; simp [stepAt, List.getD]
      calc (cumsumAux acc (pctChangeAux prev (p :: ps))).get? (j+1)
          = (cumsumAux (acc + (p - prev) / prev) (pctChangeAux p ps)).get? j := by
            simp [pctChangeAux, cumsumAux]
        _ = some (some ((acc + (p - prev) / prev) +
              ∑ k ∈ Finset.range (j+1), stepAt (p :: ps) k)) := ih p _ j hj
        _ = some (some (acc + ∑ k ∈ Finset.range (j+2), stepAt (prev :: p :: ps) k)) := by
            rw [Finset.sum_range_succ' (fun k => stepAt (prev :: p :: ps) k) (j+1)]
            simp only [hstep]
            have h0 : stepAt (prev :: p :: ps) 0 = (p - prev) / prev := by
              simp [stepAt, List.getD]
            rw [h0]; ring_nf

/-- Entry `j + 1` of the `Return` column over `p :: ps` is 100 times the
sum of the first `j + 1` day-over-day changes. -/
theorem returnSeries_get_succ (p : ℚ) (ps : List ℚ) (j : ℕ) (hj : j < ps.length) :
    (returnSeries (p :: ps)).get? (j+1) =
      some (some ((∑ k ∈ Finset.range (j+1), stepAt (p :: ps) k) * 100)) := by
  have h1 : cumsum (pctChange (p :: ps)) = none :: cumsumAux 0 (pctChangeAux p ps) := by
    simp [cumsum, pctChange, cumsumAux]
  have h2 := cumsumAux_pctChangeAux_get ps p 0 j hj
  simp only [returnSeries, List.get?_map, h1, List.get?]
  rw [h2]
  simp

/-- The first entry of the `Return` column is `NaN`. -/
theorem returnSeries_get_zero (p : ℚ) (ps : List ℚ) :
    (returnSeries (p :: ps)).get? 0 = some none := by
  simp [returnSeries, pctChange, cumsum, cumsumAux]

/-- C1: for a cleaned price series, entry `i ≥ 1` of the derived cumulative
return series is `(sum over k in 1..i of (price[k]-price[k-1])/price[k-1]) * 100`;
entry 0 is undefined (`NaN`, since there is no prior day); and the scenario
prices `[100, 110, 99]` yield the cumulative returns `[NaN, 10.0, 0.0]`
(10 + (-10) = 0 at the last date, exactly as the claim computes). -/
theorem c1_cumulative_return (prices : List ℚ) :
    (∀ i : ℕ, 1 ≤ i → i < prices.length →
      (returnSeries prices).get? i =
        some (some ((∑ k ∈ Finset.Icc 1 i,
          (prices.getD k 0 - prices.getD (k-1) 0) / prices.getD (k-1) 0) * 100))) ∧
    (∀ p ps, prices = p :: ps → (returnSeries prices).get? 0 = some none) ∧
    returnSeries [100, 110, 99] = [none, some 10, some 0] := by
  refine ⟨?_, ?_, ?_⟩
  · intro i h1 h2
    match prices, i with
    | p :: ps, j + 1 =>
      have hj : j < ps.length := by simpa using Nat.lt_of_succ_lt_succ h2
      rw [returnSeries_get_succ p ps j hj]
      congr 3
      have hIcc : Finset.Icc 1 (j+1) = Finset.Ico 1 (j+2) := (Nat.Ico_succ_right 1 (j+1)).symm
      rw [hIcc, Finset.sum_Ico_eq_sum_range]
      refine Finset.sum_congr (by norm_num) ?_
      intro k _
      simp [stepAt, Nat.add_comm 1 k]
  · intro p ps hp; rw [hp]; exact returnSeries_get_zero p ps
  · norm_num [returnSeries, pctChange, pctChangeAux, cumsum, cumsumAux]

/-- Witness for C1 at the scenario series: entry 1 equals the sum over
`Icc 1 1` of the day-over-day relative change, times 100. -/
theorem c1_cumulative_return_witness :
    (returnSeries [100, 110, 99]).get? 1 =
      some (some ((∑ k ∈ Finset.Icc 1 1,
        (([100, 110, 99] : List ℚ).getD k 0 - ([100, 110, 99] : List ℚ).getD (k-1) 0) /
          ([100, 110, 99] : List ℚ).getD (k-1) 0) * 100)) :=
  (c1_cumulative_return [100, 110, 99]).1 1 (by norm_num) (by norm_num)

/-- Error taxonomy for the comparison pipeline. `indexError` is Python's
IndexError from `iloc` on an empty slice; `sliderError` is the exception the
`st.slider` widget raises for invalid bounds. `noOverlapError` and
`emptyWindowError` are the error kinds named by the specification; the code
never constructs them. -/
inductive CompareError where
  | sliderError
  | indexError
  | noOverlapError
  | emptyWindowError
deriving DecidableEq

/-- Membership test for pandas label slicing `data.loc[start:end]` on a
date-sorted index: a row is kept iff `start ≤ date ≤ end` (both inclusive). -/
def inWindow (s e : ℤ) (r : ℤ × Option ℚ) : Bool := decide (s ≤ r.1) && decide (r.1 ≤ e)

/-- The rows selected by `asset.data.loc[start_date:end_date]` (app.py line 112). -/
def filterWindow (rows : List (ℤ × Option ℚ)) (s e : ℤ) : List (ℤ × Option ℚ) :=
  rows.filter (inWindow s e)

/-- Float subtraction with `NaN` (`none`) absorbing, as in IEEE arithmetic. -/
def subNaN : Option ℚ → Option ℚ → Option ℚ
  | some a, some b => some (a - b)
  | _, _ => none

/-- App.py line 113: `filtered_data["Return"].iloc[-1] - filtered_data["Return"].iloc[0]`.
An empty slice makes `iloc` raise IndexError; otherwise the result is the last
`Return` value minus the first one (either may be `NaN`). -/
def returnValue (rows : List (ℤ × Option ℚ)) (s e : ℤ) : Except CompareError (Option ℚ) :=
  match (filterWindow rows s e).getLast?, (filterWindow rows s e).head? with
  | some la, some fi => Except.ok (subNaN la.2 fi.2)
  | _, _ => Except.error CompareError.indexError

/-- App.py line 114: `"green" if asset.return_value >= 0 else "red"`.
`NaN >= 0` is false for floats, so a `NaN` return is coloured red. -/
def returnColor (v : Option ℚ) : String :=
  match v with
  | some r => if 0 ≤ r then "green" else "red"
  | none => "red"

/-- The cumulative-return row at the last date `≤ d` (the "as-of" lookup the
specification describes for both window bounds). -/
def asOf (rows : List (ℤ × Option ℚ)) (d : ℤ) : Option (ℤ × Option ℚ) :=
  (rows.filter (fun r => decide (r.1 ≤ d))).getLast?

/-- The cumulative-return row at the first date `≥ d` (what exact-label
slicing actually uses for the start bound). -/
def firstFrom (rows : List (ℤ × Option ℚ)) (d : ℤ) : Option (ℤ × Option ℚ) :=
  (rows.filter (fun r => decide (d ≤ r.1))).head?

/-- For a list whose dates are nondecreasing, dropping the rows before a
lower bound does not change the last row, as long as something is kept. -/
theorem getLast_filter_ge (s : ℤ) :
    ∀ (l : List (ℤ × Option ℚ)), List.Pairwise (fun a b => a.1 ≤ b.1) l →
      l.filter (fun r => decide (s ≤ r.1)) ≠ [] →
      (l.filter (fun r => decide (s ≤ r.1))).getLast? = l.getLast? := by
  intro l
  induction l with
  | nil => intro _ h; simp at h
  | cons x xs ih =>
    intro hp hne
    by_cases hx : s ≤ x.1
    · have hall : ∀ y ∈ x :: xs, decide (s ≤ y.1) = true := by
        intro y hy
        rcases List.mem_cons.mp hy with h | h
        · subst h; simpa using hx
        · simpa using le_trans hx ((List.pairwise_cons.mp hp).1 y h)
      rw [List.filter_eq_self.mpr hall]
    · have hfx : (x :: xs).filter (fun r => decide (s ≤ r.1)) =
          xs.filter (fun r => decide (s ≤ r.1)) := by
        simp [List.filter, hx]
      rw [hfx] at hne ⊢
      cases xs with
      | nil => simp at hne
      | cons y ys =>
        rw [ih (List.pairwise_cons.mp hp).2 hne, List.getLast?_cons_cons]

/-- For a list whose dates are nondecreasing, dropping the rows after an
upper bound does not change the first row, as long as something is kept. -/
theorem head_filter_le (e : ℤ) :
    ∀ (l : List (ℤ × Option ℚ)), List.Pairwise (fun a b => a.1 ≤ b.1) l →
      l.filter (fun r => decide (r.1 ≤ e)) ≠ [] →
      (l.filter (fun r => decide (r.1 ≤ e))).head? = l.head? := by
  intro l
  induction l with
  | nil => intro _ h; simp at h
  | cons x xs ih =>
    intro hp hne
    by_cases hx : x.1 ≤ e
    · simp [List.filter, hx]
    · exfalso
      apply hne
      rw [List.filter_eq_nil_iff]
      intro y hy
      rcases List.mem_cons.mp hy with h | h
      · subst h; simpa using hx
      · have := (List.pairwise_cons.mp hp).1 y h
        simp only [decide_eq_true_eq]
        intro hc
        exact hx (le_trans this hc)

/-- Window slicing is the upper-bound filter followed by the lower-bound filter. -/
theorem filterWindow_eq_ge_of_le (rows : List (ℤ × Option ℚ)) (s e : ℤ) :
    filterWindow rows s e =
      (rows.filter (fun r => decide (r.1 ≤ e))).filter (fun r => decide (s ≤ r.1)) := by
  rw [List.filter_filter]
  rfl

/-- Window slicing is the lower-bound filter followed by the upper-bound filter. -/
theorem filterWindow_eq_le_of_ge (rows : List (ℤ × Option ℚ)) (s e : ℤ) :
    filterWindow rows s e =
      (rows.filter (fun r => decide (s ≤ r.1))).filter (fun r => decide (r.1 ≤ e)) := by
  rw [List.filter_filter]
  unfold filterWindow inWindow
  congr 1
  funext r
  rw [Bool.and_comm]

deriving instance DecidableEq for Except

/-- The scenario series: dates D1, D2, D3 with prices 100, 110, 99,
zipped with its `Return` column (as `get_crypto_data` builds it). -/
def rowsABC : List (ℤ × Option ℚ) := (([1, 2, 3] : List ℤ)).zip (returnSeries [100, 110, 99])

/-- The scenario rows evaluate to explicit literals. -/
theorem rowsABC_eq : rowsABC = [(1, none), (2, some 10), (3, some 0)] := by
  norm_num [rowsABC, returnSeries, pctChange, pctChangeAux, cumsum, cumsumAux]

/-- C2 (amended): for a date-sorted series and a window that keeps at least
one row, the computed windowed return is the `Return` value at the last date
`≤ end` minus the `Return` value at the _first date `≥ start`_ (exact-label
slicing), not at the last date `≤ start`; the subtraction propagates `NaN`. -/
theorem c2_return_window (rows : List (ℤ × Option ℚ)) (s e : ℤ)
    (hsorted : List.Pairwise (fun a b => a.1 < b.1) rows)
    (hne : filterWindow rows s e ≠ []) :
    ∃ la fi, asOf rows e = some la ∧ firstFrom rows s = some fi ∧
      returnValue rows s e = Except.ok (subNaN la.2 fi.2) := by
  have hle : List.Pairwise (fun (a b : ℤ × Option ℚ) => a.1 ≤ b.1) rows :=
    hsorted.imp (fun h => le_of_lt h)
  have hlast : (filterWindow rows s e).getLast? = asOf rows e := by
    rw [filterWindow_eq_ge_of_le]
    have hpf : List.Pairwise (fun (a b : ℤ × Option ℚ) => a.1 ≤ b.1)
        (rows.filter (fun r => decide (r.1 ≤ e))) := hle.filter _
    have hne' : (rows.filter (fun r => decide (r.1 ≤ e))).filter
        (fun r => decide (s ≤ r.1)) ≠ [] := by
      rw [← filterWindow_eq_ge_of_le]; exact hne
    exact getLast_filter_ge s _ hpf hne'
  have hhead : (filterWindow rows s e).head? = firstFrom rows s := by
    rw [filterWindow_eq_le_of_ge]
    have hpf : List.Pairwise (fun (a b : ℤ × Option ℚ) => a.1 ≤ b.1)
        (rows.filter (fun r => decide (s ≤ r.1))) := hle.filter _
    have hne' : (rows.filter (fun r => decide (s ≤ r.1))).filter
        (fun r => decide (r.1 ≤ e)) ≠ [] := by
      rw [← filterWindow_eq_le_of_ge]; exact hne
    exact head_filter_le e _ hpf hne'
  obtain ⟨la, hla⟩ : ∃ la, (filterWindow rows s e).getLast? = some la := by
    cases h : (filterWindow rows s e).getLast? with
    | none => exact absurd (List.getLast?_eq_none_iff.mp h) hne
    | some la => exact ⟨la, rfl⟩
  obtain ⟨fi, hfi⟩ : ∃ fi, (filterWindow rows s e).head? = some fi := by
    cases h : (filterWindow rows s e).head? with
    | none => exact absurd (List.head?_eq_none_iff.mp h) hne
    | some fi => exact ⟨fi, rfl⟩
  refine ⟨la, fi, by rw [← hlast, hla], by rw [← hhead, hfi], ?_⟩
  unfold returnValue
  rw [hla, hfi]

/-- Witness for C2 (amended) on the scenario series with the window D2..D3. -/
theorem c2_return_window_witness :
    ∃ la fi, asOf rowsABC 3 = some la ∧ firstFrom rowsABC 2 = some fi ∧
      returnValue rowsABC 2 3 = Except.ok (subNaN la.2 fi.2) :=
  c2_return_window rowsABC 2 3
    (by rw [rowsABC_eq]; decide)
    (by rw [rowsABC_eq]; decide)

/-- Counterexample to C2 as stated: the scenario window from the first to the
last date of prices `[100, 110, 99]` yields `NaN` (the `Return` value at the
first date is `NaN`), not the claimed cumulative return 0.0. -/
theorem c2_counterexample :
    returnValue rowsABC 1 3 = Except.ok none ∧
      returnValue rowsABC 1 3 ≠ Except.ok (some 0) := by
  rw [rowsABC_eq]
  decide

/-- C3 (amended): a window keeping no row fails with Python's IndexError (not
the specification's EmptyWindowError), and a window keeping exactly one row
does not fail at all: it yields that row's `Return` minus itself. -/
theorem c3_small_window (rows : List (ℤ × Option ℚ)) (s e : ℤ) :
    (filterWindow rows s e = [] → returnValue rows s e = Except.error CompareError.indexError) ∧
    (∀ r, filterWindow rows s e = [r] → returnValue rows s e = Except.ok (subNaN r.2 r.2)) := by
  constructor
  · intro h
    unfold returnValue
    rw [h]
    rfl
  · intro r h
    unfold returnValue
    rw [h]
    rfl

/-- Witness for C3 (amended): on the scenario series, the window D5..D6 keeps
no row and raises IndexError, while the single-point window D2..D2 produces a
numeric value instead of an error. -/
theorem c3_small_window_witness :
    returnValue rowsABC 5 6 = Except.error CompareError.indexError ∧
      returnValue rowsABC 2 2 = Except.ok (subNaN (some 10) (some 10)) :=
  ⟨(c3_small_window rowsABC 5 6).1 (by rw [rowsABC_eq]; decide),
   (c3_small_window rowsABC 2 2).2 (2, some 10) (by rw [rowsABC_eq]; decide)⟩

/-- Counterexample to C3 as stated: the single-point window D2..D2 on the
scenario series produces the numeric return 0.0 and no error at all, instead
of failing with EmptyWindowError. -/
theorem c3_counterexample :
    returnValue rowsABC 2 2 = Except.ok (some 0) ∧
      returnValue rowsABC 2 2 ≠ Except.error CompareError.emptyWindowError := by
  have hf : filterWindow [((1:ℤ), (none : Option ℚ)), (2, some 10), (3, some 0)] 2 2 =
      [(2, some 10)] := by decide
  have hv : returnValue rowsABC 2 2 = Except.ok (some 0) := by
    rw [rowsABC_eq]
    unfold returnValue
    rw [hf]
    show Except.ok (subNaN (some 10) (some 10)) = _
    simp only [subNaN]
    norm_num
  exact ⟨hv, by rw [hv]; intro h; cases h⟩

/-- C10 (amended): when the window keeps exactly one row, no error is raised;
if that row's `Return` value is a number the result is exactly 0.0 and is
coloured green, but if the row is the series' first one (whose `Return` is
`NaN`) the result is `NaN` and is coloured red. -/
theorem c10_single_point (rows : List (ℤ × Option ℚ)) (s e : ℤ) (r : ℤ × Option ℚ)
    (h : filterWindow rows s e = [r]) :
    (∀ q : ℚ, r.2 = some q →
      returnValue rows s e = Except.ok (some 0) ∧ returnColor (some 0) = "green") ∧
    (r.2 = none →
      returnValue rows s e = Except.ok none ∧ returnColor none = "red") := by
  have hval : returnValue rows s e = Except.ok (subNaN r.2 r.2) := by
    unfold returnValue
    rw [h]
    rfl
  constructor
  · intro q hq
    refine ⟨?_, rfl⟩
    rw [hval, hq]
    simp [subNaN]
  · intro hq
    refine ⟨?_, rfl⟩
    rw [hval, hq]
    rfl

/-- Witness for C10 (amended): the single-point window D2..D2 on the scenario
series keeps the row (2, 10.0) and yields return 0.0 coloured green. -/
theorem c10_single_point_witness :
    returnValue rowsABC 2 2 = Except.ok (some 0) ∧ returnColor (some 0) = "green" :=
  (c10_single_point rowsABC 2 2 (2, some 10) (by rw [rowsABC_eq]; decide)).1 10 rfl

/-- Counterexample to C10 as stated: the window D1..D1 on the scenario series
keeps exactly one row, but that row is the series' first one, so the computed
return is `NaN` rather than 0.0 and the colour is red rather than green. -/
theorem c10_counterexample :
    returnValue rowsABC 1 1 = Except.ok none ∧
      returnValue rowsABC 1 1 ≠ Except.ok (some 0) ∧
      returnColor none = "red" := by
  rw [rowsABC_eq]
  decide

/-- C5: the colour of a computed numeric return is "green" (the markup the
specification calls "positive") exactly when the return is `≥ 0`, and "red"
("negative") exactly when it is `< 0`; a return of exactly 0 is green. -/
theorem c5_return_color (r : ℚ) :
    (returnColor (some r) = "green" ↔ 0 ≤ r) ∧
    (returnColor (some r) = "red" ↔ r < 0) ∧
    returnColor (some 0) = "green" := by
  by_cases h : 0 ≤ r
  · refine ⟨by simp [returnColor, h], ?_, by simp [returnColor]⟩
    simp only [returnColor, if_pos h]
    constructor
    · intro hc; exact absurd hc (by decide)
    · intro hc; exact absurd h (not_le.mpr hc)
  · refine ⟨?_, ?_, by simp [returnColor]⟩
    · simp only [returnColor, if_neg h]
      constructor
      · intro hc; exact absurd hc (by decide)
      · intro hc; exact absurd hc h
    · simp [returnColor, if_neg h, not_le.mp h]

/-- App.py `get_heading_level` (lines 56-72): markdown heading by the
absolute value of the return percentage. -/
def get_heading_level (p : ℚ) : String :=
  if 100 ≤ |p| then "#"
  else if 50 ≤ |p| then "##"
  else if 10 ≤ |p| then "###"
  else "####"

/-- C4: the heading is a function of `abs(returnPercent)` alone, with the
highest threshold winning: tier 1 is "#", tier 2 is "##", tier 3 is "###",
tier 4 is "####"; in particular 75.4 maps to "##" and -150.0 to "#". -/
theorem c4_heading_level (p : ℚ) :
    get_heading_level p = get_heading_level |p| ∧
    (100 ≤ |p| → get_heading_level p = "#") ∧
    (50 ≤ |p| → |p| < 100 → get_heading_level p = "##") ∧
    (10 ≤ |p| → |p| < 50 → get_heading_level p = "###") ∧
    (|p| < 10 → get_heading_level p = "####") ∧
    get_heading_level (754/10) = "##" ∧
    get_heading_level (-150) = "#" := by
  have habs : get_heading_level p = get_heading_level |p| := by
    unfold get_heading_level
    rw [abs_abs]
  refine ⟨habs, ?_, ?_, ?_, ?_, ?_, ?_⟩
  · intro h1
    unfold get_heading_level
    rw [if_pos h1]
  · intro h1 h2
    unfold get_heading_level
    rw [if_neg (not_le.mpr h2), if_pos h1]
  · intro h1 h2
    unfold get_heading_level
    rw [if_neg (not_le.mpr (lt_trans h2 (by norm_num))), if_neg (not_le.mpr h2), if_pos h1]
  · intro h1
    unfold get_heading_level
    rw [if_neg (not_le.mpr (lt_trans h1 (by norm_num))),
      if_neg (not_le.mpr (lt_trans h1 (by norm_num))), if_neg (not_le.mpr h1)]
  · unfold get_heading_level
    rw [abs_of_nonneg (by norm_num)]
    rw [if_neg (by norm_num), if_pos (by norm_num)]
  · unfold get_heading_level
    rw [abs_of_nonpos (by norm_num)]
    norm_num

/-- Witness for C4: the scenario value 75.4 satisfies the tier-2 bounds and
maps to the "##" heading. -/
theorem c4_heading_level_witness : get_heading_level (754/10) = "##" :=
  (c4_heading_level (754/10)).2.2.1 (by rw [abs_of_nonneg (by norm_num)]; norm_num)
    (by rw [abs_of_nonneg (by norm_num)]; norm_num)

/-- One asset's data as built by `get_crypto_data` (app.py lines 38-53):
the symbol, the rows of (date, cumulative Return) and the index extrema. -/
structure CryptoData where
  symbol : String
  rows : List (ℤ × Option ℚ)
  min_date : ℤ
  max_date : ℤ
deriving DecidableEq

/-- App.py `get_crypto_data`: zip the date index with the `Return` column
and record `data.index.min()` / `data.index.max()`. -/
def get_crypto_data (symbol : String) (dates : List ℤ) (prices : List ℚ) : CryptoData :=
  { symbol := symbol
    rows := dates.zip (returnSeries prices)
    min_date := dates.min?.getD 0
    max_date := dates.max?.getD 0 }

/-- App.py lines 92-93: the overlapping date range of the two assets,
`(max of the min dates, min of the max dates)`. -/
def resolveDomain (a b : CryptoData) : ℤ × ℤ :=
  (max a.min_date b.min_date, min a.max_date b.max_date)

/-- C6: the resolved domain is the pair (max of the series' min dates,
min of the series' max dates), and resolution is commutative. -/
theorem c6_domain_resolution (a b : CryptoData) :
    resolveDomain a b = (max a.min_date b.min_date, min a.max_date b.max_date) ∧
    resolveDomain a b = resolveDomain b a :=
  ⟨rfl, by simp only [resolveDomain, max_comm, min_comm]⟩

/-- App.py lines 96-99: the default window ends at the domain maximum and
starts `default_days` earlier, clipped to the domain minimum. -/
def default_window (min_date max_date default_days : ℤ) : ℤ × ℤ :=
  let default_end := max_date
  let default_start := default_end - default_days
  (if default_start < min_date then min_date else default_start, default_end)

/-- C7: for a nonempty domain and a nonnegative day count, the default window
is `(max (domainMax - defaultDays) domainMin, domainMax)` and lies fully
inside `[domainMin, domainMax]`. -/
theorem c7_default_window (dmin dmax days : ℤ) (h1 : dmin ≤ dmax) (h2 : 0 ≤ days) :
    default_window dmin dmax days = (max (dmax - days) dmin, dmax) ∧
    dmin ≤ (default_window dmin dmax days).1 ∧
    (default_window dmin dmax days).1 ≤ (default_window dmin dmax days).2 ∧
    (default_window dmin dmax days).2 = dmax := by
  have hw : default_window dmin dmax days =
      (if dmax - days < dmin then dmin else dmax - days, dmax) := rfl
  rw [hw]
  by_cases h : dmax - days < dmin
  · rw [if_pos h]
    refine ⟨?_, show dmin ≤ dmin by omega, show dmin ≤ dmax by omega, rfl⟩
    rw [Prod.mk.injEq]
    exact ⟨by omega, rfl⟩
  · rw [if_neg h]
    refine ⟨?_, show dmin ≤ dmax - days by omega, show dmax - days ≤ dmax by omega, rfl⟩
    rw [Prod.mk.injEq]
    exact ⟨by omega, rfl⟩

/-- Witness for C7 with domain [0, 10] and a 3-day default window. -/
theorem c7_default_window_witness :
    default_window 0 10 3 = (max (10 - 3) 0, 10) ∧
    0 ≤ (default_window 0 10 3).1 ∧
    (default_window 0 10 3).1 ≤ (default_window 0 10 3).2 ∧
    (default_window 0 10 3).2 = 10 :=
  c7_default_window 0 10 3 (by decide) (by decide)

/-- One asset's slice of the comparison output: the computed windowed return
and its colour (app.py lines 111-114 store these on the asset). -/
structure WindowedAsset where
  symbol : String
  return_value : Option ℚ
  return_color : String
deriving DecidableEq

/-- App.py `ComparisonResult`: the selected window and both assets with
their computed returns. -/
structure ComparisonResult where
  start_date : ℤ
  end_date : ℤ
  src_asset : WindowedAsset
  compare_asset : WindowedAsset
deriving DecidableEq

/-- Model of the external `st.slider` range widget (app.py lines 102-108):
the widget validates its bounds and raises when `min_value > max_value`;
otherwise it returns the user's selection, which the widget keeps inside
`[min_value, max_value]` and ordered. The `dflt` argument is the initial
value and is superseded by the user's selection `sel`. -/
def stSlider (min_value max_value : ℤ) (_dflt sel : ℤ × ℤ) : Except CompareError (ℤ × ℤ) :=
  if max_value < min_value then Except.error CompareError.sliderError
  else
    let s := max min_value (min sel.1 max_value)
    let e := max min_value (min sel.2 max_value)
    Except.ok (min s e, max s e)

/-- App.py `compare_crypto_assets` (lines 75-121): resolve the overlapping
domain, build the default window, obtain the selected window from the
slider, then compute each asset's windowed return and colour. The `dflt`
slider value is the default window; `sel` stands for the user's selection. -/
def compare_crypto_assets (src_data compare_data : CryptoData) (default_days : ℤ)
    (sel : ℤ × ℤ) : Except CompareError ComparisonResult :=
  match stSlider (resolveDomain src_data compare_data).1 (resolveDomain src_data compare_data).2
      (default_window (resolveDomain src_data compare_data).1
        (resolveDomain src_data compare_data).2 default_days) sel with
  | Except.error err => Except.error err
  | Except.ok (s, e) =>
    match returnValue src_data.rows s e, returnValue compare_data.rows s e with
    | Except.ok rv1, Except.ok rv2 =>
        Except.ok
          { start_date := s
            end_date := e
            src_asset :=
              { symbol := src_data.symbol
                return_value := rv1
                return_color := returnColor rv1 }
            compare_asset :=
              { symbol := compare_data.symbol
                return_value := rv2
                return_color := returnColor rv2 } }
    | Except.error err, _ => Except.error err
    | _, Except.error err => Except.error err

/-- C8 (amended): when the two resolved domains do not intersect, the
comparison does fail before computing any windowed return, but the failure
is the slider widget's invalid-bounds exception (`min_value > max_value`),
not a `NoOverlapError` — the code never checks for overlap itself. -/
theorem c8_no_overlap (A B : CryptoData) (days : ℤ) (sel : ℤ × ℤ)
    (h : (resolveDomain A B).2 < (resolveDomain A B).1) :
    compare_crypto_assets A B days sel = Except.error CompareError.sliderError := by
  have hs : stSlider (resolveDomain A B).1 (resolveDomain A B).2
      (default_window (resolveDomain A B).1 (resolveDomain A B).2 days) sel =
      Except.error CompareError.sliderError := by
    unfold stSlider
    rw [if_pos h]
  unfold compare_crypto_assets
  rw [hs]

/-- The first scenario asset for C8: data available on days 1..5. -/
def dataA : CryptoData := get_crypto_data "A" [1, 2, 3, 4, 5] [100, 110, 99, 105, 120]

/-- The second scenario asset for C8: data available on days 10..20. -/
def dataB : CryptoData := get_crypto_data "B" [10, 15, 20] [50, 60, 70]

/-- Witness for C8 (amended) on the non-overlapping scenario series
(A on days 1..5, B on days 10..20). -/
theorem c8_no_overlap_witness :
    compare_crypto_assets dataA dataB 365 (1, 20) = Except.error CompareError.sliderError :=
  c8_no_overlap dataA dataB 365 (1, 20) (by decide)

/-- Counterexample to C8 as stated: for the non-overlapping scenario series
the comparison does not yield `NoOverlapError`; it fails with the slider
widget's exception instead. -/
theorem c8_counterexample :
    compare_crypto_assets dataA dataB 365 (1, 20) ≠ Except.error CompareError.noOverlapError ∧
    compare_crypto_assets dataA dataB 365 (1, 20) = Except.error CompareError.sliderError := by
  have hs : stSlider (resolveDomain dataA dataB).1 (resolveDomain dataA dataB).2
      (default_window (resolveDomain dataA dataB).1 (resolveDomain dataA dataB).2 365) (1, 20) =
      Except.error CompareError.sliderError := by
    unfold stSlider
    rw [if_pos (by decide)]
  have hv : compare_crypto_assets dataA dataB 365 (1, 20) =
      Except.error CompareError.sliderError := by
    unfold compare_crypto_assets
    rw [hs]
  exact ⟨(by rw [hv]; intro hc; cases hc), hv⟩

/-- The sort key of `display_comparison` (app.py line 134):
`x.return_value or 0`. Python's `or` replaces only falsy values, so an unset
`None` becomes 0 and the float 0.0 becomes the (numerically equal) int 0,
while `NaN` — which is truthy — stays `NaN`. In this model `return_value`
always holds the computed float (possibly `NaN` = `none`), so the key is the
return value itself. -/
def sortKey (x : WindowedAsset) : Option ℚ := x.return_value

/-- Float strict comparison: any comparison against `NaN` is false. -/
def ltNaN : Option ℚ → Option ℚ → Bool
  | some p, some q => decide (p < q)
  | _, _ => false

/-- Float non-strict comparison: any comparison against `NaN` is false. -/
def leNaN : Option ℚ → Option ℚ → Bool
  | some p, some q => decide (p ≤ q)
  | _, _ => false

/-- Python's `sorted([src_asset, compare_asset], key=..., reverse=True)`
(app.py lines 132-136) on the two assets the code passes. CPython realises
`reverse=True` by reversing the list, stable-sorting ascending and reversing
again; for a two-element list this amounts to swapping exactly when the first
key compares strictly below the second. Comparisons against `NaN` are false,
so an element with a `NaN` key never moves. -/
def display_sorted_pair (a b : WindowedAsset) : List WindowedAsset :=
  if ltNaN (sortKey a) (sortKey b) = true then [b, a] else [a, b]

/-- C9 (amended): the presentation ordering is always a permutation of its
input pair; when both computed returns are numbers it is sorted descending by
`returnPercent` with ties keeping the input order; but when a return is `NaN`
(reachable: a window containing an asset's first date makes its return `NaN`)
every comparison against it is false, the pair keeps its input order, and the
output need not be descending. -/
theorem c9_presentation_order (a b : WindowedAsset) :
    (display_sorted_pair a b).Perm [a, b] ∧
    (∀ p q : ℚ, a.return_value = some p → b.return_value = some q →
      (q ≤ p → display_sorted_pair a b = [a, b]) ∧
      (p < q → display_sorted_pair a b = [b, a]) ∧
      (p = q → display_sorted_pair a b = [a, b]) ∧
      List.Sorted (fun x y => leNaN (sortKey y) (sortKey x) = true)
        (display_sorted_pair a b)) ∧
    (∀ x y : WindowedAsset, x.return_value = none →
      display_sorted_pair x y = [x, y] ∧ display_sorted_pair y x = [y, x]) := by
  refine ⟨?_, ?_, ?_⟩
  · unfold display_sorted_pair
    split_ifs with h
    · exact List.Perm.swap a b []
    · exact List.Perm.refl [a, b]
  · intro p q hp hq
    have hkey : ltNaN (sortKey a) (sortKey b) = decide (p < q) := by
      simp [ltNaN, sortKey, hp, hq]
    refine ⟨?_, ?_, ?_, ?_⟩
    · intro hqp
      unfold display_sorted_pair
      rw [hkey]
      rw [if_neg (by simpa using not_lt.mpr hqp)]
    · intro hpq
      unfold display_sorted_pair
      rw [hkey]
      rw [if_pos (by simpa using hpq)]
    · intro heq
      unfold display_sorted_pair
      rw [hkey]
      rw [if_neg (by simpa using not_lt.mpr (le_of_eq heq.symm))]
    · unfold display_sorted_pair
      rw [hkey]
      by_cases hpq : p < q
      · rw [if_pos (by simpa using hpq)]
        refine List.sorted_cons.mpr ⟨?_, List.sorted_singleton a⟩
        intro z hz
        rw [List.mem_singleton.mp hz]
        simp [leNaN, sortKey, hp, hq, le_of_lt hpq]
      · rw [if_neg (by simpa using hpq)]
        refine List.sorted_cons.mpr ⟨?_, List.sorted_singleton b⟩
        intro z hz
        rw [List.mem_singleton.mp hz]
        simp [leNaN, sortKey, hp, hq, not_lt.mp hpq]
  · intro x y hx
    constructor
    · unfold display_sorted_pair
      rw [if_neg (by simp [ltNaN, sortKey, hx])]
    · unfold display_sorted_pair
      have : ltNaN (sortKey y) (sortKey x) = false := by
        unfold ltNaN sortKey
        rw [hx]
        cases y.return_value <;> rfl
      rw [this]
      simp

/-- Witness for C9 (amended): two numeric returns, 5 ahead of 3, stay
descending and unswapped when already in order. -/
theorem c9_presentation_order_witness :
    display_sorted_pair
      { symbol := "BTC", return_value := some 5, return_color := "green" }
      { symbol := "ETH", return_value := some 3, return_color := "green" } =
      [{ symbol := "BTC", return_value := some 5, return_color := "green" },
       { symbol := "ETH", return_value := some 3, return_color := "green" }] ∧
    (display_sorted_pair
      { symbol := "BTC", return_value := some 5, return_color := "green" }
      { symbol := "ETH", return_value := some 3, return_color := "green" }).Perm
      [{ symbol := "BTC", return_value := some 5, return_color := "green" },
       { symbol := "ETH", return_value := some 3, return_color := "green" }] :=
  ⟨((c9_presentation_order
      { symbol := "BTC", return_value := some 5, return_color := "green" }
      { symbol := "ETH", return_value := some 3, return_color := "green" }).2.1
      5 3 rfl rfl).1 (by norm_num),
   (c9_presentation_order
      { symbol := "BTC", return_value := some 5, return_color := "green" }
      { symbol := "ETH", return_value := some 3, return_color := "green" }).1⟩

/-- Counterexample to C9 as stated: with a source return of -5.0 and a
comparison return of `NaN`, every comparison against the `NaN` key is false,
so Python's sort leaves the pair in input order — and that output is not
descending by `returnPercent`, since `NaN <= -5` is false too. -/
theorem c9_counterexample :
    display_sorted_pair
      { symbol := "BTC", return_value := some (-5), return_color := "red" }
      { symbol := "ETH", return_value := none, return_color := "red" } =
      [{ symbol := "BTC", return_value := some (-5), return_color := "red" },
       { symbol := "ETH", return_value := none, return_color := "red" }] ∧
    leNaN (sortKey { symbol := "ETH", return_value := none, return_color := "red" })
      (sortKey { symbol := "BTC", return_value := some (-5), return_color := "red" }) = false := by
  constructor
  · unfold display_sorted_pair
    rw [if_neg (by simp [ltNaN, sortKey])]
  · rfl
